import Mathlib

/-!
Verification of the file-classification, summarization, context-building and
chat-pipeline logic of `advanced_code_helper.py`.

The Python source is shallowly embedded: every function below mirrors the
control flow and string operations of the corresponding Python function.
Python strings are Lean `String`s; character-level operations go through
`String.data` (a `List Char`), which matches Python's code-point view of text.
-/

/-- Python `str.split(sep)` for a one-character separator, on the character
list: keeps empty fields, `[] ↦ [[]]` just as `"".split(sep) == ['']`. -/
def splitChar (c : Char) : List Char → List (List Char)
  | [] => [[]]
  | x :: xs =>
    match splitChar c xs with
    | [] => [[x]]
    | h :: t => if x = c then [] :: h :: t else (x :: h) :: t

/-- Python `content.split(sep)` for a one-character separator. -/
def pySplit (c : Char) (s : String) : List String :=
  (splitChar c s.data).map (fun l => String.mk l)

/-- Python `content.split(chr 10)`, the line split used by every analyzer. -/
def pyLines (s : String) : List String :=
  pySplit '\n' s

/-- Python `str.startswith(p)`. -/
def pyStartsWith (s p : String) : Bool :=
  decide (s.data.take p.data.length = p.data)

/-- Whitespace characters removed by Python `str.strip()` (the ASCII ones;
the inputs handled by the app are ASCII text files). -/
def isPySpace (c : Char) : Bool :=
  c = ' ' || c = '\t' || c = '\n' || c = '\r' || c = '\x0b' || c = '\x0c'

/-- Python `str.strip()`. -/
def pyStrip (s : String) : String :=
  String.mk (((s.data.dropWhile isPySpace).reverse.dropWhile isPySpace).reverse)

/-- Python slicing `s[:n]` (by code points, as Python does). -/
def pyTake (n : Nat) (s : String) : String :=
  String.mk (s.data.take n)

/-- Python slicing `s[n:]`. -/
def pyDrop (n : Nat) (s : String) : String :=
  String.mk (s.data.drop n)

/-- Python `s.count(c)` for a single-character needle. -/
def pyCount (s : String) (c : Char) : Nat :=
  s.data.count c

/-- Python `sep.join(parts)`: empty for the empty list, otherwise the parts
interleaved with the separator. -/
def pyJoin (sep : String) : List String → String
  | [] => ""
  | a :: as => as.foldl (fun acc x => acc ++ sep ++ x) a

/-- The final path component, `pathlib.Path(s).name`: trailing slashes are
dropped, then everything after the last remaining slash is the name. -/
def pyName (s : String) : String :=
  String.mk (((s.data.reverse.dropWhile (· = '/')).takeWhile (· ≠ '/')).reverse)

/-- Python `pathlib.Path(s).suffix`: the part of the name from its last dot,
empty when the name has no dot, when the only dot is the leading character
(hidden files like `.bashrc`), or when the dot is the final character. -/
def pySuffix (s : String) : String :=
  let rev := (pyName s).data.reverse
  let afterDot := rev.takeWhile (· ≠ '.')
  if afterDot.length = 0 ∨ rev.length - 1 ≤ afterDot.length then ""
  else String.mk ('.' :: afterDot.reverse)

/-- Python `str.lower()`, character by character (ASCII case mapping; file
extensions are ASCII). -/
def pyLower (s : String) : String :=
  String.mk (s.data.map Char.toLower)

/-- Python `str.upper()`, character by character. -/
def pyUpper (s : String) : String :=
  String.mk (s.data.map Char.toUpper)

/-- The `ext` computed at the top of `detect_file_type`:
`Path(filename).suffix.lower()`. -/
def pyExtLower (filename : String) : String :=
  pyLower (pySuffix filename)

/-- Source `detect_file_type(filename, content)` (lines 80-97): extension
dispatch first, then a content sniff for `>`-headed FASTA, else plain text.
The returned tags are the Python string literals; they correspond to the
spec kinds Fasta, Vcf, Csv, PythonSource, RSource, PlainText. -/
def detect_file_type (filename content : String) : String :=
  let ext := pyExtLower filename
  if ext ∈ [".fasta", ".fa", ".fna", ".faa"] then "fasta"
  else if ext = ".vcf" then "vcf"
  else if ext ∈ [".csv", ".tsv"] then "csv"
  else if ext ∈ [".py"] then "python"
  else if ext ∈ [".r", ".R"] then "r"
  else if pyStartsWith content ">" then "fasta"
  else "text"

/-- Definition following the spec words (section 4.1 rules 1-5), for
comparison against `detect_file_type`: the partial map from a recognized
lowercased extension to the kind the spec assigns it. -/
def specExtensionKind (ext : String) : Option String :=
  if ext ∈ [".fasta", ".fa", ".fna", ".faa"] then some "fasta"
  else if ext = ".vcf" then some "vcf"
  else if ext ∈ [".csv", ".tsv"] then some "csv"
  else if ext = ".py" then some "python"
  else if ext = ".r" then some "r"
  else none

/-- Modelled from the spec: `FastaParser.parse_file` of `gene_sequence_analyzer`
is imported by the source but its module is not under src/. Spec 4.2: records
are separated by lines starting with the greater-than sign; each record block
is the header-derived id together with its sequence lines joined with no
internal whitespace. This pass collects the record blocks in order, keeping
duplicate ids (the dictionary step comes afterwards). Lines before the first
header are ignored; the id is the header line after the marker. -/
def parseRecordsAux : List String → Option (String × String) → List (String × String)
  | [], none => []
  | [], some r => [r]
  | l :: ls, cur =>
    if pyStartsWith l ">" then
      (match cur with
       | none => []
       | some r => [r]) ++ parseRecordsAux ls (some (pyDrop 1 l, ""))
    else
      match cur with
      | none => parseRecordsAux ls none
      | some (k, v) => parseRecordsAux ls (some (k, v ++ pyStrip l))

/-- The ordered list of raw FASTA record blocks of an input. -/
def parseRecords (ls : List String) : List (String × String) :=
  parseRecordsAux ls none

/-- Insert-or-overwrite on an association list: existing keys keep their
position and get the new value, new keys are appended. This is exactly a
Python dict assignment `d[k] = v`. -/
def upsert : List (String × String) → String → String → List (String × String)
  | [], k, v => [(k, v)]
  | (k', v') :: t, k, v =>
    if k' = k then (k', v) :: t else (k', v') :: upsert t k v

/-- Python dict construction from a pair list: later pairs overwrite earlier
values (last-write-wins), first insertion fixes the position. -/
def pyDictOf (ps : List (String × String)) : List (String × String) :=
  ps.foldl (fun m kv => upsert m kv.1 kv.2) []

/-- Modelled from the spec: the ordered id-to-sequence mapping produced by
`FastaParser.parse_file` (spec 4.2 and the data-model note that id uniqueness
is not enforced, last-write-wins under simple dictionary semantics). The
source writes `content` to a temporary file and parses that file, so the
parse is a function of `content`. -/
def fastaParse (content : String) : List (String × String) :=
  pyDictOf (parseRecords (pyLines content))

/-- `len(sequences)` as reported by `analyze_fasta_file` (line 112). -/
def fastaRecordCount (content : String) : Nat :=
  (fastaParse content).length

/-- The number of header lines (lines starting with the record marker) of a
FASTA input, the quantity claim C5 compares the record count with. -/
def numFastaHeaderLines (content : String) : Nat :=
  ((pyLines content).filter (fun l => pyStartsWith l ">")).length

/-- The record ids derived from the header lines of a line list. -/
def headerIdsOf (ls : List String) : List String :=
  (ls.filter (fun l => pyStartsWith l ">")).map (fun l => pyDrop 1 l)

/-- The per-record GC computation of `analyze_fasta_file` (lines 115-117):
`gc_count = seq.count('G') + seq.count('C')` and
`gc_content = (gc_count / seq_len * 100) if seq_len > 0 else 0`.
Python float division is embedded as exact rational division. -/
def gcContentOf (seq : String) : ℚ :=
  let seq_len := seq.length
  let gc_count := pyCount seq 'G' + pyCount seq 'C'
  if 0 < seq_len then (gc_count : ℚ) / (seq_len : ℚ) * 100 else 0

/-- One-decimal rendering of a rational, standing in for Python float
formatting with one decimal place (the app only formats nonnegative GC
percentages; exact tie behaviour of binary floats is immaterial here). -/
def formatFixed1 (q : ℚ) : String :=
  let t : ℤ := round (q * 10)
  toString (t / 10) ++ "." ++ toString (t % 10)

/-- Source `analyze_fasta_file(content, filename)` (lines 100-129), happy
path: the summary string built from the parsed mapping. The temporary-file
round trip writes `content` verbatim and deletes the file again, so it is the
identity on the parsed text; the except-branch (import or IO failure) is an
environment failure outside this model. -/
def analyze_fasta_file (content filename : String) : String :=
  let sequences := fastaParse content
  "**FASTA File Analysis: " ++ filename ++ "**\n\n"
    ++ "- Number of sequences: " ++ toString sequences.length ++ "\n"
    ++ String.join (sequences.map (fun kv =>
        "\n**Sequence: " ++ kv.1 ++ "**\n"
          ++ "  - Length: " ++ toString kv.2.length ++ " bp\n"
          ++ "  - GC Content: " ++ formatFixed1 (gcContentOf kv.2) ++ "%\n"
          ++ "  - First 50 bases: " ++ pyTake 50 kv.2 ++ "...\n"))

/-- The `#CHROM`-headed lines of a VCF input, `column_line` of line 136. -/
def vcfColumnLines (content : String) : List String :=
  (pyLines content).filter (fun l => pyStartsWith l "#CHROM")

/-- The column report of `analyze_vcf_file` (lines 143-146): the first
`#CHROM` line is split on tabs; the pair is the total column count and
`len(columns) - 9`, a plain Python int subtraction with no clamping. -/
def vcfColumnInfo (content : String) : Option (Nat × Int) :=
  match vcfColumnLines content with
  | [] => none
  | l :: _ =>
    let n := (pySplit '\t' l).length
    some (n, (n : Int) - 9)

/-- The values interpolated into the VCF summary string. -/
structure VcfSummary where
  headerLines : Nat
  variantRecords : Nat
  columnInfo : Option (Nat × Int)
  firstVariant : Option String
deriving DecidableEq

/-- Structured view of `analyze_vcf_file` (lines 132-151): the line
partition (`##` meta lines, `#CHROM` column line, non-empty non-`#` data
lines) and the quantities the summary reports. -/
def vcfSummaryOf (content : String) : VcfSummary :=
  let lines := pyLines content
  let header_lines := lines.filter (fun l => pyStartsWith l "##")
  let variant_lines := lines.filter (fun l => !(l == "") && !(pyStartsWith l "#"))
  { headerLines := header_lines.length
  , variantRecords := variant_lines.length
  , columnInfo := vcfColumnInfo content
  , firstVariant := variant_lines.head? }

/-- Source `analyze_vcf_file(content, filename)` (lines 132-151), rendered. -/
def analyze_vcf_file (content filename : String) : String :=
  let s := vcfSummaryOf content
  "**VCF File Analysis: " ++ filename ++ "**\n\n"
    ++ "- Header lines: " ++ toString s.headerLines ++ "\n"
    ++ "- Variant records: " ++ toString s.variantRecords ++ "\n"
    ++ (match s.columnInfo with
        | none => ""
        | some ci =>
          "- Columns: " ++ toString ci.1 ++ "\n"
            ++ "- Sample columns: " ++ toString ci.2 ++ "\n")
    ++ (match s.firstVariant with
        | none => ""
        | some v => "\n**First variant:**\n```\n" ++ v ++ "\n```\n")

/-- `non_empty_lines` of `analyze_csv_file` (line 157): lines whose
stripped form is non-empty. -/
def csvNonEmptyLines (content : String) : List String :=
  (pyLines content).filter (fun l => !(pyStrip l == ""))

/-- The values the CSV/TSV summary derives from the first non-empty line. -/
structure CsvInfo where
  delimiter : Char
  formatLabel : String
  columns : List String
  dataRows : Option (Nat × String)
deriving DecidableEq

/-- The values interpolated into the CSV/TSV summary string. -/
structure CsvSummary where
  totalLines : Nat
  info : Option CsvInfo
deriving DecidableEq

/-- Structured view of `analyze_csv_file` (lines 154-183): delimiter
sniffing on the first non-empty line (tab wins over comma whenever a tab is
present), header split, and the data-row block when a second line exists. -/
def csvSummaryOf (content : String) : CsvSummary :=
  let non_empty_lines := csvNonEmptyLines content
  { totalLines := non_empty_lines.length
  , info :=
      match non_empty_lines with
      | [] => none
      | first_line :: rest =>
        let hasTab := first_line.data.contains '\t'
        let delimiter := if hasTab then '\t' else ','
        let formatLabel :=
          if hasTab then "TSV (tab-separated)" else "CSV (comma-separated)"
        some
          { delimiter := delimiter
          , formatLabel := formatLabel
          , columns := pySplit delimiter first_line
          , dataRows :=
              match rest with
              | [] => none
              | r :: _ => some (non_empty_lines.length - 1, r) } }

/-- Source `analyze_csv_file(content, filename)` (lines 154-183), rendered. -/
def analyze_csv_file (content filename : String) : String :=
  let s := csvSummaryOf content
  let base := "**CSV/TSV File Analysis: " ++ filename ++ "**\n\n"
    ++ "- Total lines: " ++ toString s.totalLines ++ "\n"
  match s.info with
  | none => base
  | some i =>
    base
      ++ "- Format: " ++ i.formatLabel ++ "\n"
      ++ "- Columns: " ++ toString i.columns.length ++ "\n"
      ++ "- Column headers: " ++ pyJoin ", " (i.columns.take 5)
      ++ (if 5 < i.columns.length then
            " ... (" ++ toString (i.columns.length - 5) ++ " more)" else "")
      ++ "\n"
      ++ (match i.dataRows with
          | none => ""
          | some dr =>
            "- Data rows: " ++ toString dr.1 ++ "\n"
              ++ "\n**First row:**\n```\n" ++ dr.2 ++ "\n```\n")

/-- Source `analyze_code_file(content, filename, language)` (lines 186-220):
purely lexical counts over trimmed lines, with the python-only blocks for
imports, classes and functions (first five signatures, then a remainder
marker). -/
def analyze_code_file (content filename language : String) : String :=
  let lines := pyLines content
  let non_empty_lines := lines.filter (fun l => !(pyStrip l == ""))
  let comment_lines :=
    if language = "python" ∨ language = "r" then
      lines.filter (fun l => pyStartsWith (pyStrip l) "#")
    else []
  let base := "**" ++ pyUpper language ++ " Code Analysis: " ++ filename ++ "**\n\n"
    ++ "- Total lines: " ++ toString lines.length ++ "\n"
    ++ "- Non-empty lines: " ++ toString non_empty_lines.length ++ "\n"
    ++ "- Comment lines: " ++ toString comment_lines.length ++ "\n"
  if language = "python" then
    let functions := (lines.filter (fun l => pyStartsWith (pyStrip l) "def ")).map pyStrip
    let classes := (lines.filter (fun l => pyStartsWith (pyStrip l) "class ")).map pyStrip
    let impLines := (lines.filter (fun l =>
      pyStartsWith (pyStrip l) "import " || pyStartsWith (pyStrip l) "from ")).map pyStrip
    base
      ++ (if impLines ≠ [] then
            "- Import statements: " ++ toString impLines.length ++ "\n" else "")
      ++ (if classes ≠ [] then
            "- Classes defined: " ++ toString classes.length ++ "\n" else "")
      ++ (if functions ≠ [] then
            "- Functions defined: " ++ toString functions.length ++ "\n"
              ++ "\n**Functions:**\n"
              ++ String.join ((functions.take 5).map (fun f => "  - " ++ f ++ "\n"))
              ++ (if 5 < functions.length then
                    "  ... (" ++ toString (functions.length - 5) ++ " more)\n" else "")
          else "")
  else base

/-- Source `analyze_uploaded_file(filename, content)` (lines 223-239):
dispatch on `detect_file_type`, with the plain-text line/character count as
the fallback. -/
def analyze_uploaded_file (filename content : String) : String :=
  let file_type := detect_file_type filename content
  if file_type = "fasta" then analyze_fasta_file content filename
  else if file_type = "vcf" then analyze_vcf_file content filename
  else if file_type = "csv" then analyze_csv_file content filename
  else if file_type = "python" then analyze_code_file content filename "python"
  else if file_type = "r" then analyze_code_file content filename "r"
  else
    "**Text File Analysis: " ++ filename ++ "**\n\n- Lines: "
      ++ toString (pyLines content).length ++ "\n- Characters: "
      ++ toString content.length ++ "\n"

/-- Python truthiness of an optional string: `None` and the empty string are
falsy, everything else is truthy. -/
def truthy : Option String → Bool
  | none => false
  | some s => !(s == "")

/-- The condition of line 275, `if file_content and file_name:`. -/
def artifactPresent (file_content file_name : Option String) : Bool :=
  truthy file_content && truthy file_name

/-- The condition of line 279, `if code_snippet and code_snippet.strip():`. -/
def snippetPresent : Option String → Bool
  | none => false
  | some s => !(s == "") && !(pyStrip s == "")

/-- The file block appended by `build_context_message` (line 277): summary
plus the raw content truncated to its first 2000 characters. -/
def fileContextBlock (file_name file_content : String) : String :=
  "**Uploaded File Context:**\n" ++ analyze_uploaded_file file_name file_content
    ++ "\n\n**File Content:**\n```\n" ++ pyTake 2000 file_content
    ++ (if 2000 < file_content.length then "..." else "") ++ "\n```"

/-- The snippet block appended by `build_context_message` (line 280). -/
def codeSnippetBlock (code_snippet : String) : String :=
  "**Code Snippet:**\n```\n" ++ code_snippet ++ "\n```"

/-- Source `build_context_message(file_content, file_name, code_snippet)`
(lines 270-282): the present blocks joined by a blank line, file block
first; the empty join is the empty string, as in the source's else branch. -/
def build_context_message (file_content file_name code_snippet : Option String) : String :=
  let context_parts :=
    (if artifactPresent file_content file_name then
      [fileContextBlock (file_name.getD "") (file_content.getD "")] else [])
    ++ (if snippetPresent code_snippet then
      [codeSnippetBlock (code_snippet.getD "")] else [])
  pyJoin "\n\n" context_parts

/-- One chat message: a role tag and its content, the dicts of lines 289-311. -/
structure ChatMessage where
  role : String
  content : String
deriving DecidableEq

/-- Source `get_system_prompt()` (lines 242-267), verbatim. -/
def get_system_prompt : String :=
  "You are an expert AI assistant specialized in bioinformatics and software development. \nYou provide helpful, accurate, and detailed assistance with:\n1. **Bioinformatics:**\n   - DNA/RNA sequence analysis\n   - Gene annotation and analysis\n   - Protein structure and function\n   - Genomic data formats (FASTA, VCF, BAM, etc.)\n   - Common bioinformatics workflows and pipelines\n   - Tools like BLAST, BWA, SAMtools, BioPython, etc.\n2. **Programming:**\n   - Python, R, and other languages\n   - Code explanation, debugging, and optimization\n   - Algorithm design and implementation\n   - Library recommendations\n   - Best practices and design patterns\n3. **Data Analysis:**\n   - Statistical analysis\n   - Data visualization\n   - Machine learning applications\n   - Data processing and transformation\nProvide clear, concise, and practical answers. Include code examples when relevant.\nFormat code blocks properly with language specifications.\nWhen analyzing files or code, provide specific insights and actionable suggestions.\n"

/-- The history window of line 294, Python `messages[-10:]`: the last ten
stored messages (all of them when fewer than ten are stored). -/
def priorHistory (msgs : List ChatMessage) : List ChatMessage :=
  msgs.drop (msgs.length - 10)

/-- The outbound message list built by `get_ai_response` (lines 289-311):
system prompt, then the trimmed prior history, then the optional
context-carrying user message, then the user question. -/
def build_messages (history : List ChatMessage) (context user_message : String) :
    List ChatMessage :=
  [⟨"system", get_system_prompt⟩]
    ++ priorHistory history
    ++ (if context ≠ "" then [⟨"user", "Context:\n" ++ context⟩] else [])
    ++ [⟨"user", user_message⟩]

/-- Source `get_ai_response` (lines 285-324) with the hosted model abstracted
as an oracle from the outbound message list to the reply text (the oracle
also absorbs the except-branch, which turns an API failure into an error
string returned as the reply). -/
def get_ai_response (ai : List ChatMessage → String)
    (history : List ChatMessage) (user_message context : String) : String :=
  ai (build_messages history context user_message)

/-- Source `get_openai_client()` (lines 69-77): `None` when no key is
configured, otherwise a client for the key (constructor failure is an
environment fault outside this model). -/
def get_openai_client (api_key : String) : Option String :=
  if api_key = "" then none else some api_key

/-- The session state touched by the submit pipeline: message history,
uploaded artifact and credential (`initialize_session_state`, lines 57-66). -/
structure AppState where
  messages : List ChatMessage
  apiKey : String
  uploadedFileContent : Option String
  uploadedFileName : Option String
deriving DecidableEq

/-- How a submission ends: rejected for missing input (line 497), halted by
the missing-credential guard (line 503), or completed with the chat call. -/
inductive SubmitOutcome where
  | inputError
  | configError
  | completed
deriving DecidableEq

/-- The observable result of one submit interaction: the message history
after the interaction, how it ended, and whether the chat API was called. -/
structure SubmitResult where
  newMessages : List ChatMessage
  outcome : SubmitOutcome
  chatCalled : Bool
deriving DecidableEq

/-- The submit branch of `render_main_content` (lines 474-529): collect the
question, build the context, synthesize a default question when only code or
a file was provided, reject empty submissions, halt when no client can be
built, otherwise append the user message, call the chat API and append the
reply. -/
def process_submit (st : AppState) (question_input code_input language : String)
    (ai : List ChatMessage → String) : SubmitResult :=
  let user_message :=
    if question_input ≠ "" ∧ pyStrip question_input ≠ "" then pyStrip question_input
    else ""
  let context := build_context_message st.uploadedFileContent st.uploadedFileName
    (if code_input ≠ "" ∧ pyStrip code_input ≠ "" then some code_input else none)
  let user_message :=
    if user_message = "" ∧ context ≠ "" then
      if code_input ≠ "" ∧ pyStrip code_input ≠ "" then
        "Please explain and analyze this " ++ language
          ++ " code. Suggest any improvements or potential issues."
      else if truthy st.uploadedFileContent then
        "Please analyze this file and provide relevant insights and suggestions."
      else ""
    else user_message
  if user_message = "" then
    { newMessages := st.messages, outcome := .inputError, chatCalled := false }
  else
    match get_openai_client st.apiKey with
    | none =>
      { newMessages := st.messages, outcome := .configError, chatCalled := false }
    | some _ =>
      let display_message :=
        if context ≠ "" then user_message ++ "\n\n" ++ context else user_message
      let msgs1 := st.messages ++ [⟨"user", display_message⟩]
      let ai_response := get_ai_response ai msgs1 user_message context
      { newMessages := msgs1 ++ [⟨"assistant", ai_response⟩]
      , outcome := .completed
      , chatCalled := true }

/-- A chat oracle with a fixed reply, used to instantiate the pipeline on
concrete inputs. -/
def constOracle (reply : String) : List ChatMessage → String :=
  fun _ => reply

/-- C1: for every filename whose lowercased extension is one of
.fasta/.fa/.fna/.faa, .vcf, .csv/.tsv, .py or .r, `detect_file_type` returns
the kind the spec maps that extension to, independent of the content. -/
theorem C1_classify_recognized_extension (filename content kind : String)
    (h : specExtensionKind (pyExtLower filename) = some kind) :
    detect_file_type filename content = kind := by
  unfold detect_file_type
  unfold specExtensionKind at h
  split_ifs at h ⊢ <;> simp_all

/-- Witness for C1 at a concrete recognized filename. -/
theorem C1_classify_recognized_extension_witness :
    specExtensionKind (pyExtLower "genome.fasta") = some "fasta" ∧
      detect_file_type "genome.fasta" "ACGT" = "fasta" :=
  ⟨by decide, C1_classify_recognized_extension "genome.fasta" "ACGT" "fasta" (by decide)⟩

/-- The ASCII lowering step never produces an uppercase R, so the dead
`.R` arm of the extension dispatch is unreachable for a lowered extension. -/
theorem toLower_ne_R (c : Char) : Char.toLower c ≠ 'R' := by
  intro h
  simp only [Char.toLower] at h
  split at h
  · next hc =>
    obtain ⟨h1, h2⟩ := hc
    generalize hn : Char.toNat c = n at h h1 h2
    interval_cases n <;> exact absurd h (by decide)
  · next hc =>
    subst h
    exact hc (by decide)

/-- A lowered extension is never the literal `.R`. -/
theorem pyExtLower_ne_R (filename : String) : pyExtLower filename ≠ ".R" := by
  intro h
  have hd : (pySuffix filename).data.map Char.toLower = ['.', 'R'] := by
    have := congrArg String.data h
    simpa [pyExtLower, pyLower] using this
  have hmem : 'R' ∈ (pySuffix filename).data.map Char.toLower := by
    rw [hd]; simp
  obtain ⟨c, -, hc⟩ := List.mem_map.1 hmem
  exact toLower_ne_R c hc

/-- C2: for every filename whose extension is not a recognized one,
`detect_file_type` returns the FASTA tag exactly when the content starts
with the record marker and the plain-text tag otherwise; and on all inputs
it is total, returning one of the six enumerated kinds (it is a pure
function, hence side-effect-free). -/
theorem C2_classify_unrecognized_and_total (filename content : String) :
    (specExtensionKind (pyExtLower filename) = none →
      detect_file_type filename content =
        (if pyStartsWith content ">" then "fasta" else "text")) ∧
    detect_file_type filename content ∈ ["fasta", "vcf", "csv", "python", "r", "text"] := by
  constructor
  · intro h
    have hR := pyExtLower_ne_R filename
    unfold detect_file_type
    unfold specExtensionKind at h
    split_ifs at h ⊢ <;> simp_all
  · unfold detect_file_type
    generalize pyExtLower filename = e
    by_cases h1 : e ∈ [".fasta", ".fa", ".fna", ".faa"]
    · rw [if_pos h1]; simp
    rw [if_neg h1]
    by_cases h2 : e = ".vcf"
    · rw [if_pos h2]; simp
    rw [if_neg h2]
    by_cases h3 : e ∈ [".csv", ".tsv"]
    · rw [if_pos h3]; simp
    rw [if_neg h3]
    by_cases h4 : e ∈ [".py"]
    · rw [if_pos h4]; simp
    rw [if_neg h4]
    by_cases h5 : e ∈ [".r", ".R"]
    · rw [if_pos h5]; simp
    rw [if_neg h5]
    by_cases h6 : pyStartsWith content ">" = true
    · rw [if_pos h6]; simp
    · rw [if_neg h6]; simp

/-- Witness for C2 at a concrete unrecognized filename, for both a
`>`-headed content and a plain one. -/
theorem C2_classify_unrecognized_and_total_witness :
    specExtensionKind (pyExtLower "notes.md") = none ∧
      detect_file_type "notes.md" ">seq" = "fasta" ∧
      detect_file_type "notes.md" "hello" = "text" :=
  ⟨by decide,
   ((C2_classify_unrecognized_and_total "notes.md" ">seq").1 (by decide)).trans (by decide),
   ((C2_classify_unrecognized_and_total "notes.md" "hello").1 (by decide)).trans (by decide)⟩

/-- The GC computation in closed form: zero on the empty sequence, otherwise
exactly 100 times the uppercase G and C count over the length. -/
theorem gcContentOf_eq (s : String) :
    gcContentOf s =
      (if s.length = 0 then 0
       else 100 * ((pyCount s 'G' : ℚ) + (pyCount s 'C' : ℚ)) / (s.length : ℚ)) := by
  unfold gcContentOf
  rcases Nat.eq_zero_or_pos s.length with h | h
  · simp [h]
  · rw [if_pos h, if_neg (by omega)]
    push_cast
    ring

/-- C4: the GC content computed for a record sequence equals
100 × (count of G + count of C) / length, counting only uppercase G and C,
and is 0 for the empty sequence with no division fault; on the spec's
examples GGCC gives 100, AATT gives 0, the empty sequence gives 0, and the
lowercase ggcc gives 0 (uppercase-only counting). -/
theorem C4_gc_content (s : String) :
    gcContentOf s =
      (if s.length = 0 then 0
       else 100 * ((pyCount s 'G' : ℚ) + (pyCount s 'C' : ℚ)) / (s.length : ℚ)) ∧
    gcContentOf "GGCC" = 100 ∧ gcContentOf "AATT" = 0 ∧
    gcContentOf "" = 0 ∧ gcContentOf "ggcc" = 0 := by
  refine ⟨gcContentOf_eq s, ?_, ?_, ?_, ?_⟩ <;> rw [gcContentOf_eq]
  · rw [(by decide : pyCount "GGCC" 'G' = 2), (by decide : pyCount "GGCC" 'C' = 2),
      (by decide : "GGCC".length = 4)]
    norm_num
  · rw [(by decide : pyCount "AATT" 'G' = 0), (by decide : pyCount "AATT" 'C' = 0),
      (by decide : "AATT".length = 4)]
    norm_num
  · simp
  · rw [(by decide : pyCount "ggcc" 'G' = 0), (by decide : pyCount "ggcc" 'C' = 0),
      (by decide : "ggcc".length = 4)]
    norm_num

/-- C6: the outbound chat request is the system message followed by the
prior-history portion and then the context/question tail, where the
prior-history portion is at most the last 10 stored messages, kept with
their role and content as a suffix of the stored history (hence in original
order), regardless of total history length. -/
theorem C6_history_window (history : List ChatMessage) (context user_message : String) :
    build_messages history context user_message =
      ChatMessage.mk "system" get_system_prompt ::
        (priorHistory history ++
          ((if context ≠ "" then [ChatMessage.mk "user" ("Context:\n" ++ context)] else [])
            ++ [ChatMessage.mk "user" user_message])) ∧
    (priorHistory history).length ≤ 10 ∧
    priorHistory history <:+ history := by
  refine ⟨by simp [build_messages], ?_, List.drop_suffix _ _⟩
  simp only [priorHistory, List.length_drop]
  omega

/-- C7: whenever the input has a line starting with `#CHROM`, the VCF
summary reports the tab-split column count of the first such line together
with a sample-column count that is exactly that count minus 9, with no
clamping. -/
theorem C7_vcf_columns (content : String) (h : vcfColumnLines content ≠ []) :
    ∃ l, (vcfColumnLines content).head? = some l ∧
      (vcfSummaryOf content).columnInfo =
        some ((pySplit '\t' l).length, ((pySplit '\t' l).length : Int) - 9) := by
  obtain ⟨l, t, hc⟩ := List.exists_cons_of_ne_nil h
  exact ⟨l, by simp [hc], by simp [vcfSummaryOf, vcfColumnInfo, hc]⟩

/-- Witness for C7 on a malformed two-column header line: the sample count
is reported as the negative number minus seven. -/
theorem C7_vcf_columns_witness :
    vcfColumnLines "#CHROM\tPOS" ≠ [] ∧
      (vcfSummaryOf "#CHROM\tPOS").columnInfo = some (2, -7) := by
  have h : vcfColumnLines "#CHROM\tPOS" ≠ [] := by decide
  obtain ⟨l, hl, hi⟩ := C7_vcf_columns "#CHROM\tPOS" h
  have hh : (vcfColumnLines "#CHROM\tPOS").head? = some "#CHROM\tPOS" := by decide
  have hl2 : l = "#CHROM\tPOS" := Option.some.inj (hl.symm.trans hh)
  subst hl2
  exact ⟨h, hi.trans (by decide)⟩

/-- C8: after discarding blank lines, the CSV/TSV summary is tab-delimited
exactly when the first non-empty line contains a tab (even if it also
contains commas) and comma-delimited otherwise. -/
theorem C8_csv_delimiter (content first : String) (rest : List String)
    (h : csvNonEmptyLines content = first :: rest) :
    ∃ i, (csvSummaryOf content).info = some i ∧
      (first.data.contains '\t' = true →
        i.delimiter = '\t' ∧ i.formatLabel = "TSV (tab-separated)") ∧
      (first.data.contains '\t' = false →
        i.delimiter = ',' ∧ i.formatLabel = "CSV (comma-separated)") := by
  simp only [csvSummaryOf, h]
  refine ⟨_, rfl, ?_, ?_⟩
  · intro ht; simp only [ht]; simp
  · intro hf; simp only [hf]; simp

/-- Witness for C8 on a first line that contains both commas and a tab: it
is classified TSV. -/
theorem C8_csv_delimiter_witness :
    csvNonEmptyLines "a,b\tc" = ["a,b\tc"] ∧
      "a,b\tc".data.contains ',' = true ∧
      "a,b\tc".data.contains '\t' = true ∧
      ∃ i, (csvSummaryOf "a,b\tc").info = some i ∧
        i.delimiter = '\t' ∧ i.formatLabel = "TSV (tab-separated)" := by
  have h : csvNonEmptyLines "a,b\tc" = ["a,b\tc"] := by decide
  obtain ⟨i, hi, ht, -⟩ := C8_csv_delimiter "a,b\tc" "a,b\tc" [] h
  exact ⟨h, by decide, by decide, i, hi, ht (by decide)⟩

/-- C3: the context builder returns the empty string when neither an
uploaded artifact nor a non-blank code snippet is given; when both are
given it returns exactly the file-context block and the code-snippet block,
in that order, joined by a blank-line separator. -/
theorem C3_context_builder (file_content file_name code_snippet : Option String) :
    (artifactPresent file_content file_name = false →
      snippetPresent code_snippet = false →
      build_context_message file_content file_name code_snippet = "") ∧
    (∀ f n s, file_content = some f → file_name = some n →
      artifactPresent file_content file_name = true →
      code_snippet = some s → snippetPresent code_snippet = true →
      build_context_message file_content file_name code_snippet =
        fileContextBlock n f ++ "\n\n" ++ codeSnippetBlock s) := by
  constructor
  · intro ha hs
    simp [build_context_message, ha, hs, pyJoin]
  · intro f n s hf hn ha hs hsp
    subst hf; subst hn; subst hs
    simp [build_context_message, ha, hsp, pyJoin]

/-- Witness for C3: the empty call yields the empty context, and a call
with both an artifact and a snippet yields the two joined blocks. -/
theorem C3_context_builder_witness :
    build_context_message none none none = "" ∧
      build_context_message (some ">x\nAC") (some "f.txt") (some "print(1)") =
        fileContextBlock "f.txt" ">x\nAC" ++ "\n\n" ++ codeSnippetBlock "print(1)" :=
  ⟨(C3_context_builder none none none).1 rfl rfl,
   (C3_context_builder (some ">x\nAC") (some "f.txt") (some "print(1)")).2
     ">x\nAC" "f.txt" "print(1)" rfl rfl (by decide) rfl (by decide)⟩

/-- C9: with no API credential configured, a submission carrying a question
halts with the configuration error, leaves the message history unchanged
(no user or assistant message appended), and never reaches the chat call. -/
theorem C9_config_error_halts (st : AppState) (question code language : String)
    (ai : List ChatMessage → String)
    (hkey : st.apiKey = "") (hq : pyStrip question ≠ "") :
    (process_submit st question code language ai).outcome = .configError ∧
    (process_submit st question code language ai).newMessages = st.messages ∧
    (process_submit st question code language ai).chatCalled = false := by
  have hq0 : question ≠ "" := by
    intro e
    exact hq (by rw [e]; rfl)
  refine ⟨?_, ?_, ?_⟩ <;>
    simp [process_submit, get_openai_client, hkey, hq0, hq]

/-- Witness for C9 on the empty-credential state with a plain question. -/
theorem C9_config_error_halts_witness :
    (process_submit ⟨[], "", none, none⟩ "hi" "" "Python" (constOracle "")).outcome
        = .configError ∧
      (process_submit ⟨[], "", none, none⟩ "hi" "" "Python" (constOracle "")).newMessages
        = [] ∧
      (process_submit ⟨[], "", none, none⟩ "hi" "" "Python" (constOracle "")).chatCalled
        = false :=
  C9_config_error_halts ⟨[], "", none, none⟩ "hi" "" "Python" (constOracle "")
    rfl (by decide)

/-- The suffix of any filename ending in `.txt` is either `.txt` itself or,
for a bare name `.txt` (a dot-led hidden file), the empty string. -/
theorem pySuffix_append_txt (p : String) :
    pySuffix (p ++ ".txt") = ".txt" ∨ pySuffix (p ++ ".txt") = "" := by
  have hdata : (p ++ ".txt").data = p.data ++ ['.', 't', 'x', 't'] := by
    rw [String.data_append]
  have hname : (pyName (p ++ ".txt")).data =
      ('t' :: 'x' :: 't' :: '.' :: (p.data.reverse.takeWhile (· ≠ '/'))).reverse := by
    simp only [pyName, hdata, List.reverse_append]
    simp [List.dropWhile_cons, List.takeWhile_cons]
  by_cases hw : p.data.reverse.takeWhile (· ≠ '/') = []
  · right
    simp only [pySuffix, hname, hw, List.reverse_reverse]
    simp [List.takeWhile_cons]
  · left
    simp only [pySuffix, hname, List.reverse_reverse]
    have hAfter : List.takeWhile (fun x => decide (x ≠ '.'))
        ('t' :: 'x' :: 't' :: '.' :: (p.data.reverse.takeWhile (· ≠ '/')))
          = ['t', 'x', 't'] := by
      rw [List.takeWhile_cons_of_pos (by decide), List.takeWhile_cons_of_pos (by decide),
        List.takeWhile_cons_of_pos (by decide), List.takeWhile_cons_of_neg (by decide)]
    rw [hAfter, if_neg]
    · rfl
    · have hlen : 0 < (p.data.reverse.takeWhile (· ≠ '/')).length :=
        List.length_pos.2 hw
      simp only [not_or, List.length_cons, List.length_nil]
      constructor
      · simp
      · omega

/-- C10: a filename ending in `.txt` is never treated as a recognized
extension, so the content decides: FASTA when it starts with the record
marker, plain text otherwise. -/
theorem C10_txt_content_controls (p content : String) :
    detect_file_type (p ++ ".txt") content =
      (if pyStartsWith content ">" then "fasta" else "text") := by
  have hext : pyExtLower (p ++ ".txt") = ".txt" ∨ pyExtLower (p ++ ".txt") = "" := by
    rcases pySuffix_append_txt p with h | h
    · left
      rw [pyExtLower, h]
      decide
    · right
      rw [pyExtLower, h]
      decide
  unfold detect_file_type
  rcases hext with h | h <;>
    rw [h, if_neg (by decide), if_neg (by decide), if_neg (by decide),
      if_neg (by decide), if_neg (by decide)]

/-- The ids of the collected record blocks are exactly the header-derived
ids, in order, preceded by the id of the record in progress. -/
theorem parseRecordsAux_map_fst (ls : List String) :
    ∀ cur : Option (String × String),
      (parseRecordsAux ls cur).map Prod.fst =
        (cur.map Prod.fst).toList ++ headerIdsOf ls := by
  induction ls with
  | nil =>
    intro cur
    cases cur <;> simp [parseRecordsAux, headerIdsOf]
  | cons l ls ih =>
    intro cur
    cases hl : pyStartsWith l ">" with
    | true =>
      cases cur with
      | none =>
        simp [parseRecordsAux, hl, headerIdsOf, List.filter_cons, ih]
      | some r =>
        simp [parseRecordsAux, hl, headerIdsOf, List.filter_cons, ih]
    | false =>
      cases cur with
      | none =>
        simpa [parseRecordsAux, hl, headerIdsOf, List.filter_cons] using ih none
      | some r =>
        obtain ⟨k, v⟩ := r
        simpa [parseRecordsAux, hl, headerIdsOf, List.filter_cons] using
          ih (some (k, v ++ pyStrip l))

/-- Overwriting an existing key leaves the key list unchanged. -/
theorem upsert_map_fst_of_mem (m : List (String × String)) (k v : String)
    (h : k ∈ m.map Prod.fst) :
    (upsert m k v).map Prod.fst = m.map Prod.fst := by
  induction m with
  | nil => simp at h
  | cons p t ih =>
    obtain ⟨k', v'⟩ := p
    by_cases hk : k' = k
    · simp [upsert, hk]
    · simp only [List.map_cons, List.mem_cons] at h
      rcases h with h | h
      · exact absurd h.symm hk
      · simp [upsert, hk, ih h]

/-- Inserting a fresh key appends the pair at the end. -/
theorem upsert_of_not_mem (m : List (String × String)) (k v : String)
    (h : k ∉ m.map Prod.fst) :
    upsert m k v = m ++ [(k, v)] := by
  induction m with
  | nil => simp [upsert]
  | cons p t ih =>
    obtain ⟨k', v'⟩ := p
    simp only [List.map_cons, List.mem_cons, not_or] at h
    obtain ⟨h1, h2⟩ := h
    have h1' : ¬k' = k := fun e => h1 e.symm
    simp [upsert, h1', ih h2]

/-- Folding pairwise-distinct fresh keys into a dict adds one entry per
pair. -/
theorem length_foldl_upsert (ps : List (String × String)) :
    ∀ acc : List (String × String),
      (ps.map Prod.fst).Nodup →
      (∀ x ∈ ps.map Prod.fst, x ∉ acc.map Prod.fst) →
      (ps.foldl (fun m kv => upsert m kv.1 kv.2) acc).length =
        acc.length + ps.length := by
  induction ps with
  | nil => simp
  | cons p t ih =>
    intro acc hnd hdisj
    obtain ⟨k, v⟩ := p
    simp only [List.map_cons, List.nodup_cons] at hnd
    obtain ⟨hknt, hndt⟩ := hnd
    have hk : k ∉ acc.map Prod.fst := hdisj k (by simp)
    simp only [List.foldl_cons]
    rw [upsert_of_not_mem acc k v hk]
    rw [ih (acc ++ [(k, v)]) hndt ?fresh]
    · simp only [List.length_append, List.length_cons, List.length_nil]
      omega
    case fresh =>
      intro x hx
      simp only [List.map_append, List.map_cons, List.map_nil, List.mem_append,
        List.mem_cons, List.not_mem_nil, or_false, not_or]
      exact ⟨fun hmem => hdisj x (by simp [hx]) hmem,
        fun e => hknt (e ▸ hx)⟩

/-- C5 counterexample: an input whose two header lines carry the same id is
collapsed by the dictionary semantics, so the reported record count (1) is
not the number of header lines (2). -/
theorem C5_record_count_counterexample :
    fastaRecordCount ">a\nAA\n>a\nCC" ≠ numFastaHeaderLines ">a\nAA\n>a\nCC" ∧
      fastaRecordCount ">a\nAA\n>a\nCC" = 1 ∧
      numFastaHeaderLines ">a\nAA\n>a\nCC" = 2 := by
  refine ⟨?_, by decide, by decide⟩
  decide

/-- C5 amended: the record count reported by the FASTA summarizer equals
the number of header lines whenever the ids derived from those header lines
are pairwise distinct; with duplicate ids the records collapse
(last-write-wins), so in general the count is the number of distinct ids. -/
theorem C5_record_count_distinct (content : String)
    (h : (headerIdsOf (pyLines content)).Nodup) :
    fastaRecordCount content = numFastaHeaderLines content := by
  unfold fastaRecordCount fastaParse pyDictOf
  have hkeys : (parseRecords (pyLines content)).map Prod.fst =
      headerIdsOf (pyLines content) := by
    simpa [parseRecords] using parseRecordsAux_map_fst (pyLines content) none
  rw [length_foldl_upsert (parseRecords (pyLines content)) []
    (hkeys ▸ h) (by simp)]
  have hlen : (parseRecords (pyLines content)).length =
      (headerIdsOf (pyLines content)).length := by
    rw [← hkeys, List.length_map]
  simp only [List.length_nil, Nat.zero_add, hlen]
  simp [headerIdsOf, numFastaHeaderLines]

/-- Witness for the amended C5 on a two-record input with distinct ids. -/
theorem C5_record_count_distinct_witness :
    (headerIdsOf (pyLines ">a\nAA\n>b\nCC")).Nodup ∧
      fastaRecordCount ">a\nAA\n>b\nCC" = 2 ∧
      numFastaHeaderLines ">a\nAA\n>b\nCC" = 2 := by
  have h : (headerIdsOf (pyLines ">a\nAA\n>b\nCC")).Nodup := by decide
  exact ⟨h, (C5_record_count_distinct ">a\nAA\n>b\nCC" h).trans (by decide), by decide⟩
